import Mathlib

/-
Verification of src/docker_healthcheck.py.

The module under study is a minimal liveness probe:

  def check_health(port=config.PORT):
      try:
          url = f"http://\x7bconfig.HOST\x7d:\x7bport\x7d/health"
          response = requests.get(url)
          if response.status_code == 200:
              print("Healthcheck passed")
              return True
          else:
              print("Healthcheck failed")
              return False
      except requests.exceptions.ConnectionError:
          print("Healthcheck failed")
          return False

  if __name__ == "__main__" and not check_health():
      sys.exit(1)

We embed it shallowly: the process configuration is a structure, the
network is a function from a URL string to the outcome of one HTTP GET
(a response, or a raised exception), and check_health returns the list
of URLs it requested, the lines it printed, and either a normal boolean
return or a propagated exception.  We also embed the rule Python uses to
bind call arguments to the parameters of a def, applied to the source
signature, since several claims concern the call contract.
-/

namespace DockerHealthcheck

/-- A Python value that can appear as the port argument: the tests pass
both integers and strings, and the source only ever formats the value
into an f-string. -/
inductive PyVal where
  | int (n : Int)
  | str (s : String)
deriving DecidableEq, Repr

/-- Formatting of a value inside a Python f-string. -/
def PyVal.format : PyVal → String
  | .int n => toString n
  | .str s => s

/-- An HTTP response as seen by the probe: requests.Response exposes a
status code, headers and a body; the source reads only status_code. -/
structure Response where
  status_code : Nat
  headers : List (String × String)
  body : String
deriving DecidableEq, Repr

/-- The exception classes relevant to the source: the caught
requests.exceptions.ConnectionError, and every other exception class,
carried with a message. -/
inductive PyExn where
  | connectionError
  | otherExn (msg : String)
deriving DecidableEq, Repr

/-- The outcome of one HTTP GET: a response, or a raised exception. -/
inductive HttpResult where
  | ok (r : Response)
  | exn (e : PyExn)
deriving DecidableEq, Repr

/-- The network: what one GET against a given URL yields. -/
def Net := String → HttpResult

/-- The process configuration read by the module: config.HOST and
config.PORT. -/
structure Config where
  HOST : String
  PORT : PyVal
deriving DecidableEq, Repr

/-- What one call of check_health produced: the URLs requested (in
order), the lines printed, and either a normal return value or a
propagated exception. -/
structure CallResult where
  requests : List String
  output : List String
  result : Except PyExn Bool
deriving Repr

/-- The URL built on line 17 of the source:
f-string "http:// config.HOST : port /health" with the braces elided;
the host comes from the configuration and the path is the literal
"/health". -/
def check_health_url (cfg : Config) (port : PyVal) : String :=
  "http://" ++ cfg.HOST ++ ":" ++ port.format ++ "/health"

/-- check_health, lines 6 to 28 of the source.  One GET is issued; a 200
response prints "Healthcheck passed" and returns True, any other
response prints "Healthcheck failed" and returns False, a
ConnectionError is caught, prints "Healthcheck failed" and returns
False, and any other exception propagates. -/
def check_health (cfg : Config) (net : Net) (port : PyVal) : CallResult :=
  match net (check_health_url cfg port) with
  | .ok response =>
    if response.status_code = 200 then
      ⟨[check_health_url cfg port], ["Healthcheck passed"], .ok true⟩
    else
      ⟨[check_health_url cfg port], ["Healthcheck failed"], .ok false⟩
  | .exn .connectionError =>
      ⟨[check_health_url cfg port], ["Healthcheck failed"], .ok false⟩
  | .exn (.otherExn msg) =>
      ⟨[check_health_url cfg port], [], .error (.otherExn msg)⟩

/-- What one run of the module produced: URLs requested, lines printed,
and either a process exit code or an uncaught exception. -/
structure ModuleResult where
  requests : List String
  output : List String
  exit : Except PyExn Nat
deriving Repr

/-- The module body, lines 31 and 32 of the source:
if __name__ == "__main__" and not check_health(): sys.exit(1).
When the module is run as the entry point, check_health is called with
its default argument config.PORT; a False return exits with status 1
and a True return falls off the end of the module, exit status 0.  When
the module is merely imported, the conjunction short-circuits and
nothing runs. -/
def runModule (isMain : Bool) (cfg : Config) (net : Net) : ModuleResult :=
  if isMain then
    let r := check_health cfg net cfg.PORT
    match r.result with
    | .ok b => ⟨r.requests, r.output, .ok (if b then 0 else 1)⟩
    | .error e => ⟨r.requests, r.output, .error e⟩
  else
    ⟨[], [], .ok 0⟩

/-- Python call binding for a def whose parameter list is params, of
which the last numDefaults have default values (the source has no
*args, **kwargs or keyword-only parameters).  A call with nPos
positional arguments and keyword arguments named kwNames binds without
a TypeError exactly when: there are no more positional arguments than
parameters, every keyword names a parameter, no keyword names a
parameter already filled positionally, and every parameter without a
default is filled. -/
def pyCallBinds (params : List String) (numDefaults : Nat) (nPos : Nat)
    (kwNames : List String) : Bool :=
  decide (nPos ≤ params.length) &&
  kwNames.all (fun k => params.contains k) &&
  (params.take nPos).all (fun p => !kwNames.contains p) &&
  (params.take (params.length - numDefaults)).enum.all
    (fun pi => decide (pi.1 < nPos) || kwNames.contains pi.2)

/-- The parameter list of the source signature
def check_health(port=config.PORT): a single parameter named port. -/
def check_health_params : List String := ["port"]

/-- The source signature gives its one parameter a default value. -/
def check_health_numDefaults : Nat := 1

/-- Modelled from the spec: the URL the contract of section 4.1 claims,
"http:// host : port path" with the braces elided, built from a host, a
port and a path that are all arguments of the call.  The source has no
such three-argument constructor; this definition follows the words of
the spec so the two can be compared. -/
def check_health_spec_url (host : String) (port : String) (path : String) : String :=
  "http://" ++ host ++ ":" ++ port ++ path

/-- A network on which every GET yields a bare 200 response. -/
def net200 : Net := fun _ => .ok ⟨200, [], ""⟩

/-- A network on which every GET yields a bare 404 response. -/
def net404 : Net := fun _ => .ok ⟨404, [], ""⟩

/-- A network on which every GET raises ConnectionError. -/
def netConnErr : Net := fun _ => .exn .connectionError

/-- A network on which every GET raises an exception of another class. -/
def netBoom : Net := fun _ => .exn (.otherExn "boom")

/-- A network answering 503 with nonempty headers and body. -/
def netA : Net := fun _ => .ok ⟨503, [("X-Extra", "1")], "busy"⟩

/-- A network answering 503 with no headers and another body. -/
def netB : Net := fun _ => .ok ⟨503, [], "down for maintenance"⟩

/-- A concrete configuration for witnesses. -/
def cfg0 : Config := ⟨"localhost", .int 5000⟩

/-- Claim C1: whenever the GET completes with a response, check_health
returns True exactly when the status code is 200; every other status
code yields False. -/
theorem C1_healthy_iff_status_200 (cfg : Config) (net : Net) (port : PyVal)
    (r : Response) (h : net (check_health_url cfg port) = .ok r) :
    ((check_health cfg net port).result = .ok true ↔ r.status_code = 200) ∧
    (r.status_code ≠ 200 → (check_health cfg net port).result = .ok false) := by
  unfold check_health
  rw [h]
  by_cases hs : r.status_code = 200 <;> simp [hs]

/-- Witness for C1, on a network answering 200. -/
theorem C1_witness :
    net200 (check_health_url cfg0 (.int 5000)) = .ok ⟨200, [], ""⟩ ∧
    (((check_health cfg0 net200 (.int 5000)).result = .ok true ↔
        (Response.mk 200 [] "").status_code = 200) ∧
      ((Response.mk 200 [] "").status_code ≠ 200 →
        (check_health cfg0 net200 (.int 5000)).result = .ok false)) :=
  ⟨rfl, C1_healthy_iff_status_200 cfg0 net200 (.int 5000) ⟨200, [], ""⟩ rfl⟩

/-- Claim C2: a ConnectionError raised by the GET is caught and mapped
to False; nothing propagates to the caller. -/
theorem C2_connection_error_is_unhealthy (cfg : Config) (net : Net) (port : PyVal)
    (h : net (check_health_url cfg port) = .exn .connectionError) :
    (check_health cfg net port).result = .ok false := by
  unfold check_health
  rw [h]

/-- Witness for C2, on a network that refuses every connection. -/
theorem C2_witness :
    netConnErr (check_health_url cfg0 (.int 8088)) = .exn .connectionError ∧
    (check_health cfg0 netConnErr (.int 8088)).result = .ok false :=
  ⟨rfl, C2_connection_error_is_unhealthy cfg0 netConnErr (.int 8088) rfl⟩

/-- Claim C4: an exception of any class other than ConnectionError is
not caught and propagates to the caller. -/
theorem C4_other_exceptions_propagate (cfg : Config) (net : Net) (port : PyVal)
    (msg : String) (h : net (check_health_url cfg port) = .exn (.otherExn msg)) :
    (check_health cfg net port).result = .error (.otherExn msg) := by
  unfold check_health
  rw [h]

/-- Witness for C4, on a network raising a non-connection exception. -/
theorem C4_witness :
    netBoom (check_health_url cfg0 (.int 5000)) = .exn (.otherExn "boom") ∧
    (check_health cfg0 netBoom (.int 5000)).result = .error (.otherExn "boom") :=
  ⟨rfl, C4_other_exceptions_propagate cfg0 netBoom (.int 5000) "boom" rfl⟩

/-- Claim C5: run as the entry point, the process exits 0 when
check_health returns True and 1 when it returns False. -/
theorem C5_exit_status (cfg : Config) (net : Net) (b : Bool)
    (h : (check_health cfg net cfg.PORT).result = .ok b) :
    (runModule true cfg net).exit = .ok (if b then 0 else 1) := by
  simp [runModule, h]

/-- Witness for C5, on a network answering 404: exit status 1. -/
theorem C5_witness :
    (check_health cfg0 net404 cfg0.PORT).result = .ok false ∧
    (runModule true cfg0 net404).exit = .ok (if false then 0 else 1) :=
  ⟨rfl, C5_exit_status cfg0 net404 false rfl⟩

/-- Claim C6: every returning invocation prints exactly one line,
"Healthcheck passed" on True and "Healthcheck failed" on False,
including the caught-ConnectionError case. -/
theorem C6_exactly_one_log_line (cfg : Config) (net : Net) (port : PyVal)
    (b : Bool) (h : (check_health cfg net port).result = .ok b) :
    (check_health cfg net port).output
      = [if b then "Healthcheck passed" else "Healthcheck failed"] := by
  unfold check_health at h ⊢
  cases hn : net (check_health_url cfg port) with
  | ok r => by_cases hs : r.status_code = 200 <;> cases b <;> simp_all
  | exn e => cases e <;> cases b <;> simp_all

/-- Witness for C6, on the caught-ConnectionError case. -/
theorem C6_witness :
    (check_health cfg0 netConnErr (.int 8088)).result = .ok false ∧
    (check_health cfg0 netConnErr (.int 8088)).output
      = [if false then "Healthcheck passed" else "Healthcheck failed"] :=
  ⟨rfl, C6_exactly_one_log_line cfg0 netConnErr (.int 8088) false rfl⟩

/-- Claim C3, counterexample: the source signature is
def check_health(port=config.PORT), so a call passing host, port and
path keywords raises TypeError, and the URL the code builds is not the
URL of the specified three-argument contract when the path argument is
anything other than "/health". -/
theorem C3_counterexample :
    pyCallBinds check_health_params check_health_numDefaults 0
      ["host", "port", "path"] = false ∧
    check_health_url ⟨"localhost", .int 5000⟩ (.int 5000) ≠
      check_health_spec_url "localhost" "5000" "/status" := by
  exact ⟨rfl, by decide⟩

/-- Claim C3 as amended: the contract is check_health(port=config.PORT).
A call with one positional argument, with a port keyword, or with no
argument at all binds; for every port the function issues exactly one
GET against http:// config.HOST : port /health (braces elided), the
host taken from the configuration and the path fixed to "/health". -/
theorem C3_amended_contract (cfg : Config) (net : Net) (port : PyVal) :
    pyCallBinds check_health_params check_health_numDefaults 1 [] = true ∧
    pyCallBinds check_health_params check_health_numDefaults 0 [] = true ∧
    pyCallBinds check_health_params check_health_numDefaults 0 ["port"] = true ∧
    (check_health cfg net port).requests = [check_health_url cfg port] ∧
    check_health_url cfg port
      = "http://" ++ cfg.HOST ++ ":" ++ port.format ++ "/health" := by
  refine ⟨rfl, rfl, rfl, ?_, rfl⟩
  unfold check_health
  cases net (check_health_url cfg port) with
  | ok r => by_cases hs : r.status_code = 200 <;> simp [hs, check_health_url]
  | exn e => cases e <;> rfl

/-- Claim C7: the call of the scenario, check_health with a path
argument, does not bind against the source signature: with keywords
port and path, or with two positional arguments as in the test
test_check_invalid_path_endpoint, Python raises TypeError instead of
returning a verdict. -/
theorem C7_path_argument_raises_TypeError :
    pyCallBinds check_health_params check_health_numDefaults 0
      ["port", "path"] = false ∧
    pyCallBinds check_health_params check_health_numDefaults 2 [] = false :=
  ⟨rfl, rfl⟩

/-- Claim C8: no validation of the port argument: every value, integer
or string, is formatted into the URL and exactly one GET is attempted;
a one-positional-argument call always binds. -/
theorem C8_no_port_validation (cfg : Config) (net : Net) (port : PyVal) :
    (check_health cfg net port).requests.length = 1 ∧
    (check_health cfg net port).requests
      = ["http://" ++ cfg.HOST ++ ":" ++ port.format ++ "/health"] ∧
    pyCallBinds check_health_params check_health_numDefaults 1
      [] = true := by
  refine ⟨?_, ?_, rfl⟩ <;>
  · unfold check_health
    cases net (check_health_url cfg port) with
    | ok r => by_cases hs : r.status_code = 200 <;> simp [hs, check_health_url]
    | exn e => cases e <;> rfl

/-- Claim C9: importing the module runs nothing: no request, no output,
no exit call. -/
theorem C9_import_has_no_effect (cfg : Config) (net : Net) :
    runModule false cfg net = ⟨[], [], .ok 0⟩ := rfl

/-- Claim C10: the verdict and the log line depend only on the status
code of the response: two completed requests with equal status codes
give equal results and equal output, whatever the headers and bodies. -/
theorem C10_verdict_depends_only_on_status (cfg : Config) (net1 net2 : Net)
    (p1 p2 : PyVal) (r1 r2 : Response)
    (h1 : net1 (check_health_url cfg p1) = .ok r1)
    (h2 : net2 (check_health_url cfg p2) = .ok r2)
    (hs : r1.status_code = r2.status_code) :
    (check_health cfg net1 p1).result = (check_health cfg net2 p2).result ∧
    (check_health cfg net1 p1).output = (check_health cfg net2 p2).output := by
  unfold check_health
  rw [h1, h2]
  by_cases h : r2.status_code = 200 <;> simp [h, hs]

/-- Witness for C10: two 503 responses with different headers and
bodies give the same verdict and the same log line. -/
theorem C10_witness :
    netA (check_health_url cfg0 (.int 5000)) = .ok ⟨503, [("X-Extra", "1")], "busy"⟩ ∧
    netB (check_health_url cfg0 (.int 5001)) = .ok ⟨503, [], "down for maintenance"⟩ ∧
    ((check_health cfg0 netA (.int 5000)).result
        = (check_health cfg0 netB (.int 5001)).result ∧
      (check_health cfg0 netA (.int 5000)).output
        = (check_health cfg0 netB (.int 5001)).output) :=
  ⟨rfl, rfl,
    C10_verdict_depends_only_on_status cfg0 netA netB (.int 5000) (.int 5001)
      ⟨503, [("X-Extra", "1")], "busy"⟩ ⟨503, [], "down for maintenance"⟩
      rfl rfl rfl⟩

end DockerHealthcheck
